/-
  Verification of media_scripts (extract_clip.py, convert_album_to_alac.py,
  random_file_list.py) against its natural-language specification.

  The Python sources are shallowly embedded: durations (floats in the
  source) become rationals, library randomness (`random.uniform`,
  `random.sample`, `random.shuffle`) is parameterised by an explicit
  random input, and every effectful call (ffmpeg/ffprobe subprocesses,
  filesystem probes, moviepy I/O) becomes an oracle supplied as an
  argument, returning `Except`/`Bool` results exactly where the Python
  call can raise or fail.
-/
import Mathlib

namespace MediaScripts

/-! ### extract_clip.py — window computation (lines 53–61)

The source:
```
if total_duration < (duration / 0.7):
    raise ValueError("Video is too short for specified duration")
buffer_percent = 0.15
min_start = total_duration * buffer_percent
max_start = total_duration * (1 - buffer_percent) - duration
start_time = random.uniform(min_start, max_start)
end_time = start_time + duration
```
-/

/-- `random.uniform a b` in CPython computes `a + (b - a) * random()`
with `random()` drawing from `[0, 1)`; the draw is the explicit input `u`. -/
def pyUniform (a b u : ℚ) : ℚ := a + (b - a) * u

/-- The percentage of the video excluded at each end (line 57). -/
def buffer_percent : ℚ := 15 / 100

/-- Lines 53–61 of `extract_clip`: the `TooShort` guard followed by the
window computation.  Returns the `(start_time, end_time)` pair, or the
`ValueError` message raised on the guard. -/
def computeWindow (total_duration duration u : ℚ) : Except String (ℚ × ℚ) :=
  if total_duration < duration / (7/10) then
    .error "Video is too short for specified duration"
  else
    let min_start := total_duration * buffer_percent
    let max_start := total_duration * (1 - buffer_percent) - duration
    let start_time := pyUniform min_start max_start u
    .ok (start_time, start_time + duration)

/-- **C1.** Whenever `total_duration ≥ duration / (1 - 2·0.15)` and the
clip duration is positive, the computed window `(s, e)` satisfies
`total·0.15 ≤ s ≤ total·0.85 - duration`, `e = s + duration` and
`0 ≤ s < e ≤ total`; at `total = 1200`, `duration = 5` the start range
is exactly `[180, 1015]`. -/
theorem extract_clip_window_in_valid_region
    (total_duration duration u s e : ℚ)
    (hdur : 0 < duration)
    (hadm : duration / (7/10) ≤ total_duration)
    (hu0 : 0 ≤ u) (hu1 : u ≤ 1)
    (hok : computeWindow total_duration duration u = .ok (s, e)) :
    total_duration * buffer_percent ≤ s ∧
    s ≤ total_duration * (1 - buffer_percent) - duration ∧
    e = s + duration ∧
    0 ≤ s ∧ s < e ∧ e ≤ total_duration ∧
    (total_duration = 1200 → duration = 5 → 180 ≤ s ∧ s ≤ 1015) := by
  have hnot : ¬ total_duration < duration / (7/10) := not_lt.mpr hadm
  rw [computeWindow, if_neg hnot] at hok
  injection hok with hok
  injection hok with hs he
  subst hs
  subst he
  have htot : 0 < total_duration := by
    have : 0 < duration / (7/10) := by positivity
    linarith
  -- the valid region is nonempty: max_start - min_start = 0.7·total - duration ≥ 0
  have hwidth : 0 ≤ (total_duration * (1 - buffer_percent) - duration)
      - total_duration * buffer_percent := by
    have h7 : duration ≤ total_duration * (7/10) := by
      have := (div_le_iff₀ (by norm_num : (0:ℚ) < 7/10)).mp hadm
      linarith
    unfold buffer_percent
    linarith
  set a := total_duration * buffer_percent with ha
  set b := total_duration * (1 - buffer_percent) - duration with hb
  have hlo : a ≤ pyUniform a b u := by
    unfold pyUniform
    nlinarith
  have hhi : pyUniform a b u ≤ b := by
    unfold pyUniform
    nlinarith
  refine ⟨hlo, hhi, rfl, ?_, ?_, ?_, ?_⟩
  · have : 0 ≤ a := by
      rw [ha]
      unfold buffer_percent
      positivity
    linarith
  · linarith
  · have : b + duration ≤ total_duration := by
      rw [hb]
      unfold buffer_percent
      nlinarith
    linarith
  · intro h1200 h5
    constructor
    · have : a = 180 := by rw [ha, h1200]; unfold buffer_percent; norm_num
      linarith
    · have : b = 1015 := by rw [hb, h1200, h5]; unfold buffer_percent; norm_num
      linarith

/-- Witness for C1 at `total_duration = 1200`, `duration = 5`, `u = 1/2`. -/
theorem extract_clip_window_in_valid_region_witness :
    computeWindow 1200 5 (1/2) = .ok (1195/2, 1205/2) ∧
    1200 * buffer_percent ≤ 1195/2 ∧ (180:ℚ) ≤ 1195/2 ∧ (1195/2:ℚ) ≤ 1015 := by
  have h := extract_clip_window_in_valid_region 1200 5 (1/2) (1195/2) (1205/2)
    (by norm_num) (by norm_num) (by norm_num) (by norm_num)
    (by unfold computeWindow pyUniform buffer_percent; norm_num)
  refine ⟨by unfold computeWindow pyUniform buffer_percent; norm_num, h.1, ?_, ?_⟩
  · exact (h.2.2.2.2.2.2 rfl rfl).1
  · exact (h.2.2.2.2.2.2 rfl rfl).2

/-- **C2.** The `ValueError` (`TooShort`) is raised if and only if
`total_duration < duration / (1 - 2·0.15)`, and on that path no window
pair is produced. -/
theorem extract_clip_too_short_iff (total_duration duration u : ℚ) :
    (∃ msg, computeWindow total_duration duration u = .error msg) ↔
      total_duration < duration / (7/10) := by
  constructor
  · rintro ⟨msg, hmsg⟩
    by_contra hge
    rw [computeWindow, if_neg hge] at hmsg
    exact Except.noConfusion hmsg
  · intro hlt
    exact ⟨_, by rw [computeWindow, if_pos hlt]⟩

/-! ### os.path helpers used by extract_clip.py

`os.path.basename`, `os.path.splitext` and `os.path.join` (POSIX flavour),
embedded over `List Char` / `String` following CPython's `posixpath`. -/

/-- `str.rfind(c)`: index of the last occurrence of `c`, `none` for CPython's `-1`. -/
def rfindAux (c : Char) : List Char → Nat → Option Nat → Option Nat
  | [], _, best => best
  | x :: xs, i, best => rfindAux c xs (i + 1) (if x = c then some i else best)

/-- Last index of `c` in `l` (CPython `rfind`, with `none` for `-1`). -/
def pyRfind (l : List Char) (c : Char) : Option Nat := rfindAux c l 0 none

/-- `posixpath.basename(p) = p[p.rfind('/') + 1:]`. -/
def pyBasename (l : List Char) : List Char :=
  match pyRfind l '/' with
  | none => l
  | some i => l.drop (i + 1)

/-- The root part of `posixpath.splitext(p)`: split at the last `'.'` that
lies after the last `'/'`, provided some non-dot character stands between
them (so leading dots of the file name never start an extension). -/
def pySplitextRoot (l : List Char) : List Char :=
  match pyRfind l '.' with
  | none => l
  | some dotIndex =>
    let start : Nat :=
      match pyRfind l '/' with
      | none => 0
      | some s => s + 1
    if start ≤ dotIndex then
      if (List.range dotIndex).any (fun i => start ≤ i && l.getD i '.' != '.') then
        l.take dotIndex
      else l
    else l

/-- `os.path.basename` on strings. -/
def basenameStr (s : String) : String := ⟨pyBasename s.data⟩

/-- `os.path.splitext(s)[0]` on strings. -/
def stemStr (s : String) : String := ⟨pySplitextRoot s.data⟩

/-- `posixpath.join(a, b)` for a single extra component: `b` when `b` is
absolute, `a ++ b` when `a` is empty or already ends with the separator,
and `a ++ "/" ++ b` otherwise. -/
def pyJoin (a b : String) : String :=
  if b.data.head? = some '/' then b
  else if a.data.isEmpty || a.data.getLast? = some '/' then a ++ b
  else a ++ "/" ++ b

/-! ### extract_clip.py — the full per-item routine and the batch loop -/

/-- The effectful library calls of `extract_clip.py`, supplied as oracles.
Each field stands for one call site that can touch the outside world;
`Except` results model the exception the call may raise.  `pathExists`
stands for `os.path.exists`, which the script could consult but never
calls. -/
structure Env where
  /-- `os.path.expanduser` (depends on `HOME`). -/
  expanduser : String → String
  /-- `glob.glob(os.path.join(source_dir, "**", "*.mp4"), recursive=True)`. -/
  glob : String → List String
  /-- `os.makedirs(os.path.dirname(output_file), exist_ok=True)`, keyed by the output path. -/
  mkdirs : String → Except String Unit
  /-- `VideoFileClip(input_file)` followed by `.duration`. -/
  probe : String → Except String ℚ
  /-- `video.subclipped(...)` / `clip.write_videofile(output_file, ...)`, keyed by input and output paths. -/
  write : String → String → Except String Unit
  /-- The successive draws of the global RNG feeding `random.uniform`, scaled to `[0, 1)`. -/
  draw : Nat → ℚ
  /-- `os.path.exists` — available to the script but never called by it. -/
  pathExists : String → Bool

/-- What one call of `extract_clip` leaves behind: either the extracted
window, or the message of the exception caught by its `except` clause. -/
inductive ItemOutcome where
  | extracted (start_time end_time : ℚ)
  | errorCaught (msg : String)
deriving DecidableEq, Repr

/-- Lines 44–74: the whole body of `extract_clip` sits in a `try` block
whose `except Exception` clause prints the error and returns normally, so
the function is total — every failure becomes an `ItemOutcome.errorCaught`
and nothing propagates to the caller. -/
def extract_clip (env : Env) (input_file output_file : String) (duration u : ℚ) :
    ItemOutcome :=
  let input := env.expanduser input_file
  let output := env.expanduser output_file
  match env.mkdirs output with
  | .error e => .errorCaught e
  | .ok _ =>
    match env.probe input with
    | .error e => .errorCaught e
    | .ok total_duration =>
      match computeWindow total_duration duration u with
      | .error e => .errorCaught e
      | .ok w =>
        match env.write input output with
        | .error e => .errorCaught e
        | .ok _ => .extracted w.1 w.2

/-- Lines 82–84: clamp the requested count to the number of found movies
(printing only a warning when it is larger). -/
def clampCount (numFiles requested : Nat) : Nat :=
  if numFiles < requested then numFiles else requested

/-- `random.sample(population, k)`: k items drawn without replacement.
The randomness is the pre-shuffled population `shuffled` (a permutation
of the population); the sample is its first `k` elements. -/
def pySample (shuffled : List String) (k : Nat) : List String := shuffled.take k

/-- Lines 78–85 of `process_multiple_movies`: glob the expanded source
directory, clamp the count, and sample that many movies. -/
def selectedMovies (env : Env) (source_dir : String) (shuffled : List String)
    (requested : Nat) : List String :=
  pySample shuffled (clampCount (env.glob (env.expanduser source_dir)).length requested)

/-- Lines 87–88: the output path for one movie — the movie file's stem
(`splitext(basename(path))[0]`) plus the fixed suffix `"_clip.mp4"`,
joined onto the output directory. -/
def outputFileFor (output_dir movie_path : String) : String :=
  pyJoin output_dir (stemStr (basenameStr movie_path) ++ "_clip.mp4")

/-- One iteration of the batch loop (lines 86–90): derive the output path
and run `extract_clip`; `i` indexes the RNG draw this iteration consumes. -/
def processItem (env : Env) (output_dir : String) (duration : ℚ) (i : Nat)
    (movie_path : String) : String × ItemOutcome :=
  let output_file := outputFileFor output_dir movie_path
  (output_file, extract_clip env movie_path output_file duration (env.draw i))

/-- Lines 76–90: `process_multiple_movies`.  Returns the trace of the
batch: one `(output path, outcome)` entry per selected movie, in order. -/
def process_multiple_movies (env : Env) (source_dir output_dir : String)
    (shuffled : List String) (num_movies : Nat) (duration : ℚ) :
    List (String × ItemOutcome) :=
  let od := env.expanduser output_dir
  (selectedMovies env source_dir shuffled num_movies).enum.map
    (fun p => processItem env od duration p.1 p.2)

/-! ### extract_clip.py — main (lines 92–111) -/

/-- The parsed command line (`argparse`): `--output` is required, counts
are naturals (`type=int` used as a count). -/
structure Args where
  input : Option String
  output : String
  source : Option String
  count : Option Nat
  duration : ℚ

/-- Python truthiness of an optional string argument (`if args.input:`):
absent and empty strings are falsy. -/
def truthyOptStr : Option String → Bool
  | none => false
  | some s => !s.data.isEmpty

/-- Python truthiness of an optional count (`args.count`): absent and `0` are falsy. -/
def truthyOptNat : Option Nat → Bool
  | none => false
  | some n => decide (n ≠ 0)

/-- How one run of `main` ends: an early `sys.exit(1)`, a single-file run,
or a batch run (the last two fall off the end of `main`, exit status `0`). -/
inductive RunResult where
  | exitError (code : Nat)
  | singleRun (outcome : ItemOutcome)
  | batchRun (results : List (String × ItemOutcome))
deriving DecidableEq, Repr

/-- The process exit status of a `RunResult`: `sys.exit(code)` on the
arbitration errors, and falling off the end of `main` exits `0` whatever
the outcomes were. -/
def exitCode : RunResult → Nat
  | .exitError c => c
  | .singleRun _ => 0
  | .batchRun _ => 0

/-- Lines 100–111 of `main`: mode arbitration and dispatch.  `shuffled`
carries the randomness of `random.sample` as in `selectedMovies`. -/
def mainRun (args : Args) (env : Env) (shuffled : List String) : RunResult :=
  if truthyOptStr args.input then
    if truthyOptStr args.source || truthyOptNat args.count then
      .exitError 1
    else
      .singleRun (extract_clip env (args.input.getD "") args.output args.duration (env.draw 0))
  else if truthyOptStr args.source && truthyOptNat args.count then
    .batchRun (process_multiple_movies env (args.source.getD "") args.output shuffled
      (args.count.getD 0) args.duration)
  else
    .exitError 1

/-! ### Concrete environments used by witnesses -/

/-- A benign environment: three movies found, every probe reports 1200 s,
every filesystem call succeeds, every draw is `1/2`. -/
def sampleEnv : Env where
  expanduser := fun s => s
  glob := fun _ => ["/v/a.mp4", "/v/b.mp4", "/v/c.mp4"]
  mkdirs := fun _ => .ok ()
  probe := fun _ => .ok 1200
  write := fun _ _ => .ok ()
  draw := fun _ => 1/2
  pathExists := fun _ => false

/-- An environment whose glob finds nothing and whose probe reports a
1-second video (too short for any default clip). -/
def tooShortEnv : Env where
  expanduser := fun s => s
  glob := fun _ => []
  mkdirs := fun _ => .ok ()
  probe := fun _ => .ok 1
  write := fun _ _ => .ok ()
  draw := fun _ => 0
  pathExists := fun _ => false

/-- Five movies; probing the third one raises `ExtractError`, the rest
succeed. -/
def failingThirdEnv : Env where
  expanduser := fun s => s
  glob := fun _ => ["/v/m1.mp4", "/v/m2.mp4", "/v/m3.mp4", "/v/m4.mp4", "/v/m5.mp4"]
  mkdirs := fun _ => .ok ()
  probe := fun p => if p = "/v/m3.mp4" then .error "ExtractError" else .ok 1200
  write := fun _ _ => .ok ()
  draw := fun _ => 0
  pathExists := fun _ => false

/-! ### C4 — batch selection: size and distinctness -/

/-- **C4.** When the shuffled population is a permutation of the globbed
candidate list and the candidates are pairwise distinct, the selection has
no duplicates and exactly `min requested (number of candidates)` elements;
a `requested` beyond the candidate count is clamped, not an error. -/
theorem batch_selection_nodup_and_size (env : Env) (source_dir : String)
    (shuffled : List String) (requested : Nat)
    (hperm : List.Perm shuffled (env.glob (env.expanduser source_dir)))
    (hnd : (env.glob (env.expanduser source_dir)).Nodup) :
    (selectedMovies env source_dir shuffled requested).Nodup ∧
    (selectedMovies env source_dir shuffled requested).length =
      min requested (env.glob (env.expanduser source_dir)).length := by
  have hshuf : shuffled.Nodup := hperm.nodup_iff.mpr hnd
  constructor
  · exact (List.take_sublist _ _).nodup hshuf
  · have hlen : shuffled.length = (env.glob (env.expanduser source_dir)).length :=
      hperm.length_eq
    simp only [selectedMovies, pySample, clampCount, List.length_take, hlen]
    split <;> omega

/-- Witness for C4: three candidates, five requested — three distinct
selections come back. -/
theorem batch_selection_nodup_and_size_witness :
    (selectedMovies sampleEnv "/v" ["/v/b.mp4", "/v/c.mp4", "/v/a.mp4"] 5).Nodup ∧
    (selectedMovies sampleEnv "/v" ["/v/b.mp4", "/v/c.mp4", "/v/a.mp4"] 5).length =
      min 5 (sampleEnv.glob (sampleEnv.expanduser "/v")).length :=
  batch_selection_nodup_and_size sampleEnv "/v" ["/v/b.mp4", "/v/c.mp4", "/v/a.mp4"] 5
    (by decide) (by decide)

/-! ### C3 — a failing item never aborts the batch -/

/-- **C3.** The batch trace has exactly one entry per selected movie, and
the `i`-th entry is a function of the `i`-th movie alone — whatever
happened (or failed) on the other items.  In particular the loop reaches
every item and runs to completion. -/
theorem batch_continues_past_failures (env : Env) (source_dir output_dir : String)
    (shuffled : List String) (num : Nat) (d : ℚ) :
    (process_multiple_movies env source_dir output_dir shuffled num d).length =
      (selectedMovies env source_dir shuffled num).length ∧
    ∀ i m, (selectedMovies env source_dir shuffled num)[i]? = some m →
      (process_multiple_movies env source_dir output_dir shuffled num d)[i]? =
        some (processItem env (env.expanduser output_dir) d i m) := by
  constructor
  · simp [process_multiple_movies, List.enum_length]
  · intro i m hm
    have henum : (selectedMovies env source_dir shuffled num).enum[i]? = some (i, m) := by
      rw [List.getElem?_enum, hm]
      rfl
    simp only [process_multiple_movies, List.getElem?_map, henum]
    rfl

/-- Witness for C3: in the five-movie batch whose third item fails, the
third entry records the caught `ExtractError` and the fourth and fifth
items are still processed. -/
theorem batch_continues_past_failures_witness :
    (process_multiple_movies failingThirdEnv "/v" "/out"
      ["/v/m1.mp4", "/v/m2.mp4", "/v/m3.mp4", "/v/m4.mp4", "/v/m5.mp4"] 5 5).length = 5 ∧
    (process_multiple_movies failingThirdEnv "/v" "/out"
      ["/v/m1.mp4", "/v/m2.mp4", "/v/m3.mp4", "/v/m4.mp4", "/v/m5.mp4"] 5 5)[2]? =
      some ("/out/m3_clip.mp4", .errorCaught "ExtractError") ∧
    (process_multiple_movies failingThirdEnv "/v" "/out"
      ["/v/m1.mp4", "/v/m2.mp4", "/v/m3.mp4", "/v/m4.mp4", "/v/m5.mp4"] 5 5)[3]? =
      some (processItem failingThirdEnv "/out" 5 3 "/v/m4.mp4") ∧
    (process_multiple_movies failingThirdEnv "/v" "/out"
      ["/v/m1.mp4", "/v/m2.mp4", "/v/m3.mp4", "/v/m4.mp4", "/v/m5.mp4"] 5 5)[4]? =
      some (processItem failingThirdEnv "/out" 5 4 "/v/m5.mp4") := by
  have h := batch_continues_past_failures failingThirdEnv "/v" "/out"
    ["/v/m1.mp4", "/v/m2.mp4", "/v/m3.mp4", "/v/m4.mp4", "/v/m5.mp4"] 5 5
  refine ⟨h.1.trans (by decide), ?_, ?_, ?_⟩
  · rw [h.2 2 "/v/m3.mp4" (by decide)]
    decide
  · exact h.2 3 "/v/m4.mp4" (by decide)
  · exact h.2 4 "/v/m5.mp4" (by decide)

/-! ### C8 — deterministic output naming, no existence pre-check -/

/-- Projecting the first component out of a map over `enum` whose first
component ignores the index recovers a plain map. -/
theorem map_fst_enum_map {α β γ : Type} (l : List α) (F : Nat × α → β × γ)
    (G : α → β) (h : ∀ p, (F p).1 = G p.2) :
    (l.enum.map F).map Prod.fst = l.map G := by
  rw [List.map_map]
  rw [show (Prod.fst ∘ F) = (fun p : Nat × α => G p.2) from funext fun p => h p]
  rw [show (fun p : Nat × α => G p.2) = G ∘ Prod.snd from rfl]
  rw [← List.map_map, List.enum_map_snd]

/-- **C8.** Every batch entry's output path is the expanded output
directory joined with the input's stem plus the fixed `"_clip.mp4"`
suffix, and the whole batch trace is unchanged under any reinterpretation
of `os.path.exists` — the loop never consults it before calling the
extractor. -/
theorem batch_output_naming_and_no_existence_check
    (env : Env) (source_dir output_dir : String) (shuffled : List String)
    (num : Nat) (d : ℚ) :
    (process_multiple_movies env source_dir output_dir shuffled num d).map Prod.fst =
      (selectedMovies env source_dir shuffled num).map
        (fun p => pyJoin (env.expanduser output_dir) (stemStr (basenameStr p) ++ "_clip.mp4")) ∧
    ∀ ex : String → Bool,
      process_multiple_movies { env with pathExists := ex } source_dir output_dir shuffled num d =
        process_multiple_movies env source_dir output_dir shuffled num d := by
  constructor
  · exact map_fst_enum_map (selectedMovies env source_dir shuffled num)
      (fun p => processItem env (env.expanduser output_dir) d p.1 p.2)
      (fun p => pyJoin (env.expanduser output_dir) (stemStr (basenameStr p) ++ "_clip.mp4"))
      (fun p => rfl)
  · intro ex
    rfl

/-! ### C5 — error propagation in single-item mode -/

/-- **C5 counterexample.** A single-file invocation whose video is too
short for the requested clip: the error is caught inside `extract_clip`
(the outcome records the `ValueError` message) yet `main` falls off the
end and the process exits `0`, not non-zero. -/
theorem single_mode_error_exit_counterexample :
    mainRun ⟨some "in.mp4", "out.mp4", none, none, 5⟩ tooShortEnv [] =
      .singleRun (.errorCaught "Video is too short for specified duration") ∧
    exitCode (mainRun ⟨some "in.mp4", "out.mp4", none, none, 5⟩ tooShortEnv []) = 0 := by
  have hw : computeWindow 1 5 0 = Except.error "Video is too short for specified duration" := by
    rw [computeWindow, if_pos (by norm_num)]
  have hrun : mainRun ⟨some "in.mp4", "out.mp4", none, none, 5⟩ tooShortEnv [] =
      .singleRun (.errorCaught "Video is too short for specified duration") := by
    simp [mainRun, extract_clip, tooShortEnv, hw, truthyOptStr, truthyOptNat]
  exact ⟨hrun, by rw [hrun]; rfl⟩

/-- **C5 amended.** In single-item mode every error is caught inside
`extract_clip`'s `except` clause; `main` always falls off the end, so the
process exits `0` whether or not the extraction failed — errors surface
only as printed messages and recorded outcomes, never as the exit code. -/
theorem single_mode_always_exits_zero (args : Args) (env : Env) (shuffled : List String)
    (hin : truthyOptStr args.input = true)
    (hsrc : truthyOptStr args.source = false)
    (hcnt : truthyOptNat args.count = false) :
    mainRun args env shuffled =
      .singleRun (extract_clip env (args.input.getD "") args.output args.duration (env.draw 0)) ∧
    exitCode (mainRun args env shuffled) = 0 := by
  simp [mainRun, hin, hsrc, hcnt, exitCode]

/-- Witness for the amended C5: the failing single-file invocation above
still exits `0`. -/
theorem single_mode_always_exits_zero_witness :
    mainRun ⟨some "in.mp4", "out.mp4", none, none, 5⟩ tooShortEnv [] =
      .singleRun (extract_clip tooShortEnv "in.mp4" "out.mp4" 5 (tooShortEnv.draw 0)) ∧
    exitCode (mainRun ⟨some "in.mp4", "out.mp4", none, none, 5⟩ tooShortEnv []) = 0 :=
  single_mode_always_exits_zero ⟨some "in.mp4", "out.mp4", none, none, 5⟩ tooShortEnv []
    (by decide) (by decide) (by decide)

/-! ### C6 — exit codes of main -/

/-- **C6 counterexample.** A batch invocation over a source directory in
which the glob finds zero candidates: the run is a (vacuous) batch run and
the process exits `0`, not non-zero as the claim requires for the
zero-candidate case. -/
theorem zero_candidates_exit_counterexample :
    tooShortEnv.glob (tooShortEnv.expanduser "/src") = [] ∧
    truthyOptStr (some "/src") = true ∧
    truthyOptNat (some 3) = true ∧
    mainRun ⟨none, "/out", some "/src", some 3, 5⟩ tooShortEnv [] = .batchRun [] ∧
    exitCode (mainRun ⟨none, "/out", some "/src", some 3, 5⟩ tooShortEnv []) = 0 := by
  refine ⟨rfl, by decide, by decide, by decide, by decide⟩

/-- Single-file mode is entered: `--input` truthy and neither batch
argument truthy. -/
def singleModeOk (args : Args) : Bool :=
  truthyOptStr args.input && !(truthyOptStr args.source || truthyOptNat args.count)

/-- Batch mode is entered: `--input` falsy and both batch arguments truthy. -/
def batchModeOk (args : Args) : Bool :=
  !truthyOptStr args.input && (truthyOptStr args.source && truthyOptNat args.count)

/-- **C6 amended.** The exit code is a function of the parsed arguments
alone, decided before any processing: it is `0` exactly when mode
arbitration succeeds (single-file or batch mode is entered) and `1`
otherwise; neither per-item failures nor an empty candidate list change
it, and `exitError` is only ever produced by the arbitration checks. -/
theorem exit_code_determined_by_mode_arbitration (args : Args) (env env2 : Env)
    (sh sh2 : List String) :
    (exitCode (mainRun args env sh) = 0 ↔ (singleModeOk args || batchModeOk args) = true) ∧
    exitCode (mainRun args env sh) = exitCode (mainRun args env2 sh2) := by
  cases hin : truthyOptStr args.input <;>
    cases hsrc : truthyOptStr args.source <;>
      cases hcnt : truthyOptNat args.count <;>
        simp [mainRun, singleModeOk, batchModeOk, exitCode, hin, hsrc, hcnt]

/-! ### C7 — the randomness source of the window sampler -/

/-- Where a piece of code obtains its randomness. -/
inductive RandomSourceKind where
  | globalModule
  | injected
deriving DecidableEq

/-- The formal parameters of `def extract_clip(input_file, output_file,
duration=5)` (line 44): no random source is among them. -/
def extract_clip_params : List String := ["input_file", "output_file", "duration"]

/-- Line 61 reads `start_time = random.uniform(min_start, max_start)`:
the draw comes from the process-global `random` module. -/
def extract_clip_random_source : RandomSourceKind := .globalModule

/-- **C7 counterexample.** The sampler's randomness is the process-global
`random` module, and no random-source parameter exists in
`extract_clip`'s signature — contradicting "drawn from the supplied
random source (never a process-global default)". -/
theorem random_source_is_global_counterexample :
    extract_clip_random_source = RandomSourceKind.globalModule ∧
    extract_clip_random_source ≠ RandomSourceKind.injected ∧
    "random_source" ∉ extract_clip_params ∧
    "rng" ∉ extract_clip_params := by
  refine ⟨rfl, by decide, by decide, by decide⟩

/-- **C7 amended.** The sampler is a pure function of its inputs and the
next draw of the process-global RNG: the outcome of `extract_clip`
depends on nothing but the expansion of its two paths, the oracle results
at those paths, the duration and the draw — any two environments agreeing
there (they may differ in `glob`, `draw` elsewhere, `pathExists`, and at
all other paths) produce the identical window. -/
theorem extract_clip_deterministic (env env2 : Env) (inp out : String) (d u : ℚ)
    (_he : env.expanduser inp = env2.expanduser inp)
    (_ho : env.expanduser out = env2.expanduser out)
    (hm : env.mkdirs (env.expanduser out) = env2.mkdirs (env2.expanduser out))
    (hp : env.probe (env.expanduser inp) = env2.probe (env2.expanduser inp))
    (hw : env.write (env.expanduser inp) (env.expanduser out) =
      env2.write (env2.expanduser inp) (env2.expanduser out)) :
    extract_clip env inp out d u = extract_clip env2 inp out d u := by
  simp only [extract_clip]
  rw [hm, hp, hw]

/-- Witness for the amended C7: flipping `pathExists`, `glob` and the
unused draws of the RNG stream leaves the outcome unchanged. -/
theorem extract_clip_deterministic_witness :
    extract_clip sampleEnv "/v/a.mp4" "/out/a_clip.mp4" 5 (1/2) =
      extract_clip
        { sampleEnv with pathExists := fun _ => true, glob := fun _ => [], draw := fun _ => 0 }
        "/v/a.mp4" "/out/a_clip.mp4" 5 (1/2) :=
  extract_clip_deterministic sampleEnv
    { sampleEnv with pathExists := fun _ => true, glob := fun _ => [], draw := fun _ => 0 }
    "/v/a.mp4" "/out/a_clip.mp4" 5 (1/2) rfl rfl rfl rfl rfl

/-! ### convert_album_to_alac.py — failure atomicity of one conversion

`convert_file` (lines 58–73) runs ffmpeg without `check=True` and returns
`True` exactly when the subprocess exit status is `0`.  The tail of one
loop iteration of `main` (lines 133–142) tallies the item and, on
failure, unlinks whatever the failed conversion left at the output path.
-/

/-- Lines 70–73 of `convert_file`: the boolean it reports, as a function
of the ffmpeg exit status. -/
def convert_file (returncode : Int) : Bool := returncode == 0

/-- The `processed, failed, skipped` counters of the conversion loop. -/
structure Tally where
  processed : Nat
  failed : Nat
  skipped : Nat
deriving DecidableEq, Repr

/-- Lines 133–142: the end of one loop iteration, entered with the value
`success` that `convert_file` returned.  `fs` tells which paths exist at
that point — on a failure it may still contain a partially written
`output_file` — and the step returns the filesystem and tallies after the
iteration: on success the item is tallied processed (and the source
unlinked under `-r`); on failure the item is tallied failed and the
output path is unlinked when present, so it no longer exists. -/
def finishItem (fs : String → Bool) (t : Tally) (input_file output_file : String)
    (success removeFlag : Bool) : (String → Bool) × Tally :=
  if success then
    (if removeFlag then (fun p => if p = input_file then false else fs p) else fs,
     { t with processed := t.processed + 1 })
  else
    ((fun p => if p = output_file then false else fs p),
     { t with failed := t.failed + 1 })

/-- **C9.** Whenever `convert_file` reports failure, the iteration ends
with no output file for the item — whatever partial output the failed
ffmpeg run left is deleted — and the item counts as failed, not processed
(and not skipped). -/
theorem failed_conversion_leaves_no_output (fs : String → Bool) (t : Tally)
    (input_file output_file : String) (returncode : Int) (removeFlag : Bool)
    (hfail : convert_file returncode = false) :
    (finishItem fs t input_file output_file (convert_file returncode) removeFlag).1 output_file
      = false ∧
    (finishItem fs t input_file output_file (convert_file returncode) removeFlag).2.failed
      = t.failed + 1 ∧
    (finishItem fs t input_file output_file (convert_file returncode) removeFlag).2.processed
      = t.processed ∧
    (finishItem fs t input_file output_file (convert_file returncode) removeFlag).2.skipped
      = t.skipped := by
  rw [hfail]
  simp [finishItem]

/-- Witness for C9: ffmpeg exits `1` while a partial output file exists;
after the iteration the output file is gone and only `failed` grew. -/
theorem failed_conversion_leaves_no_output_witness :
    (finishItem (fun p => p = "/alb/t_alac.m4a" || p = "/alb/t.m4a") ⟨2, 0, 1⟩
        "/alb/t.m4a" "/alb/t_alac.m4a" (convert_file 1) false).1 "/alb/t_alac.m4a" = false ∧
    (finishItem (fun p => p = "/alb/t_alac.m4a" || p = "/alb/t.m4a") ⟨2, 0, 1⟩
        "/alb/t.m4a" "/alb/t_alac.m4a" (convert_file 1) false).2.failed = 0 + 1 ∧
    (finishItem (fun p => p = "/alb/t_alac.m4a" || p = "/alb/t.m4a") ⟨2, 0, 1⟩
        "/alb/t.m4a" "/alb/t_alac.m4a" (convert_file 1) false).2.processed = 2 ∧
    (finishItem (fun p => p = "/alb/t_alac.m4a" || p = "/alb/t.m4a") ⟨2, 0, 1⟩
        "/alb/t.m4a" "/alb/t_alac.m4a" (convert_file 1) false).2.skipped = 1 :=
  failed_conversion_leaves_no_output (fun p => p = "/alb/t_alac.m4a" || p = "/alb/t.m4a")
    ⟨2, 0, 1⟩ "/alb/t.m4a" "/alb/t_alac.m4a" 1 false (by decide)

/-! ### random_file_list.py — the written list is a permutation

`list_files_randomly` (lines 34–53) filters `os.listdir(directory)` down
to regular files, shuffles the list in place with `random.shuffle`, and
writes the names in that order.  `random.shuffle` is modelled by its
contract — an RNG-driven rearrangement: draw an index into the remaining
names (the draw `sel n`, reduced mod `n`), emit that name, recurse on the
rest.  The fuel argument makes the recursion structural. -/

/-- Shuffle with explicit fuel; `fuel ≥ l.length` exhausts `l`. -/
def pyShuffleAux {α : Type} (sel : Nat → Nat) : Nat → List α → List α
  | 0, _ => []
  | _, [] => []
  | fuel + 1, x :: xs =>
    let n := xs.length + 1
    let i := sel n % n
    (x :: xs).getD i x :: pyShuffleAux sel fuel ((x :: xs).eraseIdx i)

/-- `random.shuffle(l)`: the rearrangement of `l` selected by the draws `sel`. -/
def pyShuffle {α : Type} (l : List α) (sel : Nat → Nat) : List α :=
  pyShuffleAux sel l.length l

/-- Lines 34–53: filter the directory entries to regular files (`isfile`
probes the entry joined onto the directory), shuffle, and return the list
of names written to the output file, in written order. -/
def list_files_randomly (directory : String) (entries : List String)
    (isfile : String → Bool) (sel : Nat → Nat) : List String :=
  pyShuffle (entries.filter (fun f => isfile (pyJoin directory f))) sel

/-- With enough fuel, the shuffle is a permutation of its input. -/
theorem pyShuffleAux_perm {α : Type} [DecidableEq α] (sel : Nat → Nat) :
    ∀ (fuel : Nat) (l : List α), l.length ≤ fuel →
      List.Perm (pyShuffleAux sel fuel l) l := by
  intro fuel
  induction fuel with
  | zero =>
    intro l hl
    rw [Nat.le_zero] at hl
    rw [List.length_eq_zero] at hl
    subst hl
    exact .refl _
  | succ fuel ih =>
    intro l hl
    match l with
    | [] => exact .refl _
    | x :: xs =>
      set m := x :: xs with hm
      have hmlen : 0 < m.length := by simp [hm]
      have hi : sel m.length % m.length < m.length := Nat.mod_lt _ hmlen
      have hget : m.getD (sel m.length % m.length) x = m[sel m.length % m.length] := by
        simp [List.getD, List.getElem?_eq_getElem hi]
      have hrec : List.Perm
          (pyShuffleAux sel fuel (m.eraseIdx (sel m.length % m.length)))
          (m.eraseIdx (sel m.length % m.length)) := by
        apply ih
        have := List.length_eraseIdx_add_one hi
        simp only [hm] at *
        omega
      have hsimp : pyShuffleAux sel (fuel + 1) (x :: xs) =
          m.getD (sel m.length % m.length) x ::
            pyShuffleAux sel fuel (m.eraseIdx (sel m.length % m.length)) := by
        simp only [pyShuffleAux, hm, List.length_cons]
      rw [hsimp, hget]
      exact ((hrec.cons _).trans ((List.erase_getElem hi).symm.cons _)).trans
        (List.perm_cons_erase (m.getElem_mem hi)).symm

/-- **C10.** For every directory listing, the list written by
`list_files_randomly` is a permutation of the listing's regular (isfile)
entries: assuming the listing has no duplicate names (as `os.listdir`
guarantees), every regular file name appears exactly once, every
non-regular or absent name appears zero times, and the shuffle changes
only the order. -/
theorem random_file_list_is_permutation (directory : String) (entries : List String)
    (isfile : String → Bool) (sel : Nat → Nat) (hnd : entries.Nodup) :
    List.Perm (list_files_randomly directory entries isfile sel)
      (entries.filter (fun f => isfile (pyJoin directory f))) ∧
    (list_files_randomly directory entries isfile sel).Nodup ∧
    ∀ s, (list_files_randomly directory entries isfile sel).count s =
      if s ∈ entries ∧ isfile (pyJoin directory s) = true then 1 else 0 := by
  have hperm : List.Perm (list_files_randomly directory entries isfile sel)
      (entries.filter (fun f => isfile (pyJoin directory f))) :=
    pyShuffleAux_perm sel _ _ le_rfl
  have hfnd : (entries.filter (fun f => isfile (pyJoin directory f))).Nodup :=
    hnd.filter _
  refine ⟨hperm, hperm.nodup_iff.mpr hfnd, ?_⟩
  intro s
  rw [hperm.count_eq]
  by_cases hs : s ∈ entries ∧ isfile (pyJoin directory s) = true
  · rw [if_pos hs]
    exact List.count_eq_one_of_mem hfnd (List.mem_filter.mpr hs)
  · rw [if_neg hs]
    apply List.count_eq_zero_of_not_mem
    intro hmem
    exact hs (List.mem_filter.mp hmem)

/-- Witness for C10 on a concrete listing: three entries, one of which is
a directory, and an arbitrary draw sequence. -/
theorem random_file_list_is_permutation_witness :
    List.Perm (list_files_randomly "/d" ["a.txt", "sub", "b.txt"]
        (fun p => p != "/d/sub") (fun n => 7 * n + 3))
      (["a.txt", "sub", "b.txt"].filter (fun f => (fun p => p != "/d/sub") (pyJoin "/d" f))) ∧
    (list_files_randomly "/d" ["a.txt", "sub", "b.txt"]
        (fun p => p != "/d/sub") (fun n => 7 * n + 3)).Nodup ∧
    ((list_files_randomly "/d" ["a.txt", "sub", "b.txt"]
        (fun p => p != "/d/sub") (fun n => 7 * n + 3)).count "a.txt" =
      if "a.txt" ∈ ["a.txt", "sub", "b.txt"] ∧
          (fun p => p != "/d/sub") (pyJoin "/d" "a.txt") = true then 1 else 0) ∧
    ((list_files_randomly "/d" ["a.txt", "sub", "b.txt"]
        (fun p => p != "/d/sub") (fun n => 7 * n + 3)).count "sub" =
      if "sub" ∈ ["a.txt", "sub", "b.txt"] ∧
          (fun p => p != "/d/sub") (pyJoin "/d" "sub") = true then 1 else 0) := by
  have h := random_file_list_is_permutation "/d" ["a.txt", "sub", "b.txt"]
    (fun p => p != "/d/sub") (fun n => 7 * n + 3) (by decide)
  exact ⟨h.1, h.2.1, h.2.2 "a.txt", h.2.2 "sub"⟩

end MediaScripts
